import Mathlib

/-!
Verification of the link-visit scheduler/tracker of the StealthWebNavigator
repository. The repository ships its implementation modules
(ultimate_stealth_bot.py, links/link_manager.py, continuous_stealth_bot.py)
outside the archived tree; only their documentation, CI configuration and
callers are present. The components below are therefore modelled from the
design specification, faithfully to its words, and the claims are settled
against these models.
-/

namespace StealthBot

/-- Modelled from the spec: priority enum of a LinkEntry
(`priority: enum(high,medium,low)`); the implementation file
links/target_links.py is missing from the tree. -/
inductive Priority
  | high
  | medium
  | low
deriving DecidableEq

/-- Modelled from the spec: visit-frequency enum of a LinkEntry
(`visit_frequency: enum(frequent,normal,rare)`); the implementation file
links/target_links.py is missing from the tree. -/
inductive VisitFrequency
  | frequent
  | normal
  | rare
deriving DecidableEq

/-- Modelled from the spec, section 3 data model: LinkEntry is the immutable
per-URL configuration record; the implementation file links/target_links.py
is missing from the tree. Timestamps and delays are seconds as naturals. -/
structure LinkEntry where
  url : String
  category : String
  priority : Priority
  visit_frequency : VisitFrequency
  delay_min : Nat
  delay_max : Nat
deriving DecidableEq

/-- Modelled from the spec, section 3 data model: VisitRecord is the immutable
outcome of one visit attempt; the implementation module
ultimate_stealth_bot.py is missing from the tree. Load time is an exact
rational number of seconds. -/
structure VisitRecord where
  url : String
  category : String
  timestamp : Nat
  http_status : Option Nat
  success : Bool
  error : Option String
  load_time_seconds : Rat
  user_agent : String
deriving DecidableEq

/-- Modelled from the spec, section 3 data model: LinkStats is the mutable
per-URL counter record maintained by the Stats Tracker; the implementation
module links/link_manager.py is missing from the tree. -/
structure LinkStats where
  url : String
  visit_count : Nat
  success_count : Nat
  failure_count : Nat
  total_load_time : Rat
  last_visit_timestamp : Nat
  consecutive_failures : Nat
deriving DecidableEq

/-- Fresh statistics for a URL that has never been visited. -/
def initStats (u : String) : LinkStats :=
  { url := u
    visit_count := 0
    success_count := 0
    failure_count := 0
    total_load_time := 0
    last_visit_timestamp := 0
    consecutive_failures := 0 }

/-- Modelled from the spec, section 4.4 `record`: increment visit_count,
increment success_count or failure_count, reset or increment
consecutive_failures, update last_visit_timestamp and the load-time
accumulator used for the running mean. -/
def updateStats (s : LinkStats) (r : VisitRecord) : LinkStats :=
  { s with
    visit_count := s.visit_count + 1
    success_count := if r.success then s.success_count + 1 else s.success_count
    failure_count := if r.success then s.failure_count else s.failure_count + 1
    total_load_time := s.total_load_time + r.load_time_seconds
    last_visit_timestamp := r.timestamp
    consecutive_failures := if r.success then 0 else s.consecutive_failures + 1 }

/-- Modelled from the spec, section 4.4: the Stats Tracker is a keyed store of
LinkStats, one per distinct URL; the implementation module
links/link_manager.py is missing from the tree. -/
structure StatsTracker where
  lookup : String → Option LinkStats

/-- The tracker before any visit has been recorded. -/
def StatsTracker.empty : StatsTracker :=
  ⟨fun _ => none⟩

/-- Modelled from the spec, section 4.4 `record(visit) -> void`: fold one
VisitRecord into the stats entry of its URL, creating the entry if absent. -/
def StatsTracker.record (t : StatsTracker) (r : VisitRecord) : StatsTracker :=
  ⟨fun u =>
    if u = r.url then
      some (updateStats ((t.lookup r.url).getD (initStats r.url)) r)
    else
      t.lookup u⟩

/-- Fold a whole sequence of VisitRecords into the tracker, in order. -/
def StatsTracker.recordAll (t : StatsTracker) (rs : List VisitRecord) : StatsTracker :=
  rs.foldl StatsTracker.record t

/-- Modelled from the spec, section 4.4: frequency_window maps
frequent to 1 hour, normal to 6 hours, rare to 24 hours (in seconds). -/
def frequency_window : VisitFrequency → Nat
  | .frequent => 3600
  | .normal => 21600
  | .rare => 86400

/-- Modelled from the spec, section 4.4 `is_eligible(entry, now)`: returns
true unless `now - last_visit_timestamp < frequency_window(visit_frequency)`;
a URL with no stats entry (never visited) is eligible. -/
def StatsTracker.is_eligible (t : StatsTracker) (e : LinkEntry) (now : Nat) : Bool :=
  match t.lookup e.url with
  | none => true
  | some s => ! decide (now - s.last_visit_timestamp < frequency_window e.visit_frequency)

/-- Modelled from the spec, section 4.4: the default disable threshold is 5. -/
def disable_threshold : Nat := 5

/-- Modelled from the spec, section 4.4 `should_disable(url)`: true when
`consecutive_failures >= disable_threshold`; a URL with no stats entry is not
disabled. -/
def StatsTracker.should_disable (t : StatsTracker) (u : String) : Bool :=
  match t.lookup u with
  | none => false
  | some s => decide (disable_threshold ≤ s.consecutive_failures)

/-- Modelled from the spec, section 4.4 numeric semantics: the average load
time is recomputed as `total_load_time / visit_count`. -/
def LinkStats.average_load_time (s : LinkStats) : Rat :=
  s.total_load_time / (s.visit_count : Rat)

/-- The counter invariant of one LinkStats entry. -/
def statsInv (s : LinkStats) : Prop :=
  s.success_count + s.failure_count = s.visit_count

theorem statsInv_init (u : String) : statsInv (initStats u) := by
  simp [statsInv, initStats]

theorem statsInv_update (s : LinkStats) (r : VisitRecord) (h : statsInv s) :
    statsInv (updateStats s r) := by
  simp only [statsInv, updateStats] at h ⊢
  cases r.success <;> simp <;> omega

theorem lookup_record (t : StatsTracker) (r : VisitRecord) (u : String) :
    (t.record r).lookup u =
      if u = r.url then
        some (updateStats ((t.lookup r.url).getD (initStats r.url)) r)
      else t.lookup u := rfl

theorem recordAll_nil (t : StatsTracker) : t.recordAll [] = t := rfl

theorem recordAll_cons (t : StatsTracker) (r : VisitRecord) (rs : List VisitRecord) :
    t.recordAll (r :: rs) = (t.record r).recordAll rs := rfl

/-- Claim C1: for every LinkStats entry reachable from the empty tracker by
any sequence of record operations (in particular initially and after every
record), success_count + failure_count = visit_count. -/
theorem stats_invariant_holds (rs : List VisitRecord) (u : String) (s : LinkStats)
    (h : (StatsTracker.empty.recordAll rs).lookup u = some s) :
    s.success_count + s.failure_count = s.visit_count := by
  suffices H : ∀ (rs : List VisitRecord) (t : StatsTracker),
      (∀ v sv, t.lookup v = some sv → statsInv sv) →
      ∀ v sv, (t.recordAll rs).lookup v = some sv → statsInv sv by
    exact H rs StatsTracker.empty (fun v sv hv => by simp [StatsTracker.empty] at hv) u s h
  intro rs
  induction rs with
  | nil => intro t ht v sv hv; exact ht v sv hv
  | cons r rs ih =>
    intro t ht v sv hv
    rw [recordAll_cons] at hv
    refine ih (t.record r) ?_ v sv hv
    intro w sw hw
    rw [lookup_record] at hw
    by_cases hwu : w = r.url
    · simp only [hwu, if_pos rfl] at hw
      cases hw
      apply statsInv_update
      cases hl : t.lookup r.url with
      | none => simpa [hl] using statsInv_init r.url
      | some s0 => simpa [hl] using ht r.url s0 hl
    · simp only [if_neg hwu] at hw
      exact ht w sw hw

/-- A concrete record used by several witnesses. -/
def rec_ok : VisitRecord :=
  { url := "https://x.com/a/status/1"
    category := "x_links"
    timestamp := 100
    http_status := some 200
    success := true
    error := none
    load_time_seconds := (1 : Rat) / 2
    user_agent := "Mozilla/5.0" }

/-- A concrete failed record used by several witnesses. -/
def rec_fail : VisitRecord :=
  { url := "https://x.com/a/status/1"
    category := "x_links"
    timestamp := 100
    http_status := none
    success := false
    error := some "timeout"
    load_time_seconds := 0
    user_agent := "Mozilla/5.0" }

theorem stats_invariant_holds_witness :
    ((StatsTracker.empty.recordAll [rec_ok, rec_fail]).lookup "https://x.com/a/status/1"
        = some (updateStats (updateStats (initStats "https://x.com/a/status/1") rec_ok) rec_fail))
      ∧ (updateStats (updateStats (initStats "https://x.com/a/status/1") rec_ok) rec_fail).success_count
          + (updateStats (updateStats (initStats "https://x.com/a/status/1") rec_ok) rec_fail).failure_count
        = (updateStats (updateStats (initStats "https://x.com/a/status/1") rec_ok) rec_fail).visit_count :=
  ⟨rfl, stats_invariant_holds [rec_ok, rec_fail] "https://x.com/a/status/1" _ rfl⟩

theorem lookup_recordAll_ne_nil (u : String) :
    ∀ (rs : List VisitRecord) (t : StatsTracker), rs ≠ [] → (∀ r ∈ rs, r.url = u) →
      (t.recordAll rs).lookup u
        = some (rs.foldl updateStats ((t.lookup u).getD (initStats u))) := by
  intro rs
  induction rs with
  | nil => intro t hne _; exact absurd rfl hne
  | cons r rs ih =>
    intro t _ hall
    have hr : r.url = u := hall r (List.mem_cons_self r rs)
    rw [recordAll_cons, List.foldl_cons]
    cases rs with
    | nil =>
      rw [recordAll_nil, lookup_record, if_pos hr.symm, hr]
      rfl
    | cons r2 rs2 =>
      rw [ih (t.record r) (by simp) (fun x hx => hall x (List.mem_cons_of_mem r hx))]
      rw [lookup_record, if_pos hr.symm, hr]
      rfl

theorem recordAll_getD (u : String) (rs : List VisitRecord) (t : StatsTracker)
    (h : ∀ r ∈ rs, r.url = u) :
    ((t.recordAll rs).lookup u).getD (initStats u)
      = rs.foldl updateStats ((t.lookup u).getD (initStats u)) := by
  cases rs with
  | nil => rfl
  | cons r rs => rw [lookup_recordAll_ne_nil u (r :: rs) t (by simp) h]; rfl

theorem foldl_visit_count : ∀ (rs : List VisitRecord) (s : LinkStats),
    (rs.foldl updateStats s).visit_count = s.visit_count + rs.length := by
  intro rs
  induction rs with
  | nil => intro s; simp
  | cons r rs ih =>
    intro s
    rw [List.foldl_cons, ih]
    simp [updateStats]
    omega

theorem foldl_success_count : ∀ (rs : List VisitRecord) (s : LinkStats),
    (rs.foldl updateStats s).success_count
      = s.success_count + rs.countP (fun r => r.success) := by
  intro rs
  induction rs with
  | nil => intro s; simp
  | cons r rs ih =>
    intro s
    rw [List.foldl_cons, ih, List.countP_cons]
    simp only [updateStats]
    cases h : r.success <;> simp [h] <;> try omega

theorem foldl_total_load : ∀ (rs : List VisitRecord) (s : LinkStats),
    (rs.foldl updateStats s).total_load_time
      = s.total_load_time + (rs.map (fun r => r.load_time_seconds)).sum := by
  intro rs
  induction rs with
  | nil => intro s; simp
  | cons r rs ih =>
    intro s
    rw [List.foldl_cons, ih]
    simp only [updateStats, List.map_cons, List.sum_cons]
    ring

theorem foldl_consecutive_failures : ∀ (rs : List VisitRecord) (s : LinkStats),
    (∀ r ∈ rs, r.success = false) →
    (rs.foldl updateStats s).consecutive_failures
      = s.consecutive_failures + rs.length := by
  intro rs
  induction rs with
  | nil => intro s _; simp
  | cons r rs ih =>
    intro s hall
    have hr : r.success = false := hall r (List.mem_cons_self r rs)
    rw [List.foldl_cons, ih (updateStats s r) (fun x hx => hall x (List.mem_cons_of_mem r hx))]
    simp [updateStats, hr]
    omega

/-- The stats entry of a URL after folding a sequence of records into the
empty tracker (fresh stats when the URL was never recorded). -/
def urlStats (rs : List VisitRecord) (u : String) : LinkStats :=
  ((StatsTracker.empty.recordAll rs).lookup u).getD (initStats u)

theorem urlStats_eq_foldl (rs : List VisitRecord) (u : String)
    (h : ∀ r ∈ rs, r.url = u) :
    urlStats rs u = rs.foldl updateStats (initStats u) := by
  rw [urlStats, recordAll_getD u rs StatsTracker.empty h]
  rfl

/-- Claim C2: is_eligible returns true unless
`now - last_visit_timestamp < frequency_window(visit_frequency)`, the windows
being 1 hour for frequent, 6 hours for normal, 24 hours for rare; and right
after a visit recorded at t1, a later time t2 with
`t2 - t1 < frequency_window` is not eligible. -/
theorem is_eligible_spec :
    (frequency_window VisitFrequency.frequent = 3600
      ∧ frequency_window VisitFrequency.normal = 21600
      ∧ frequency_window VisitFrequency.rare = 86400)
    ∧ (∀ (t : StatsTracker) (e : LinkEntry) (now : Nat),
        t.is_eligible e now = false
          ↔ ∃ s, t.lookup e.url = some s
              ∧ now - s.last_visit_timestamp < frequency_window e.visit_frequency)
    ∧ (∀ (t : StatsTracker) (e : LinkEntry) (r : VisitRecord) (t1 t2 : Nat),
        r.url = e.url → r.timestamp = t1 → t1 < t2 →
        t2 - t1 < frequency_window e.visit_frequency →
        (t.record r).is_eligible e t2 = false) := by
  refine ⟨⟨rfl, rfl, rfl⟩, ?_, ?_⟩
  · intro t e now
    unfold StatsTracker.is_eligible
    cases h : t.lookup e.url with
    | none => simp
    | some s => simp
  · intro t e r t1 t2 hurl hts _ hwin
    unfold StatsTracker.is_eligible
    rw [lookup_record, if_pos hurl.symm]
    simp only [updateStats]
    simp [hts, hwin]

/-- A concrete link entry used by witnesses. -/
def entry0 : LinkEntry :=
  { url := "https://x.com/a/status/1"
    category := "x_links"
    priority := .high
    visit_frequency := .frequent
    delay_min := 2
    delay_max := 5 }

theorem is_eligible_spec_witness :
    (StatsTracker.empty.record rec_ok).is_eligible entry0 200 = false :=
  is_eligible_spec.2.2 StatsTracker.empty entry0 rec_ok 100 200 rfl rfl
    (by decide) (by decide)

/-- Claim C3: folding a sequence of N VisitRecords for the same URL into the
Stats Tracker, of which S have success=true, yields a LinkStats with
success_count = S and visit_count = N. -/
theorem record_counts_spec (rs : List VisitRecord) (u : String)
    (h : ∀ r ∈ rs, r.url = u) :
    (urlStats rs u).success_count = rs.countP (fun r => r.success)
      ∧ (urlStats rs u).visit_count = rs.length := by
  rw [urlStats_eq_foldl rs u h, foldl_success_count, foldl_visit_count]
  simp [initStats]

theorem record_counts_spec_witness :
    (urlStats [rec_ok, rec_fail] "https://x.com/a/status/1").success_count
        = ([rec_ok, rec_fail].countP (fun r => r.success))
      ∧ (urlStats [rec_ok, rec_fail] "https://x.com/a/status/1").visit_count
        = ([rec_ok, rec_fail] : List VisitRecord).length :=
  record_counts_spec [rec_ok, rec_fail] "https://x.com/a/status/1" (by decide)

/-- Claim C4: with the default disable_threshold of 5, should_disable is true
exactly when consecutive_failures has reached the threshold; five consecutive
failed visits to the same URL make should_disable true; and a single
successful visit resets that URL's consecutive_failures to 0. -/
theorem should_disable_spec :
    (disable_threshold = 5)
    ∧ (∀ (t : StatsTracker) (u : String) (s : LinkStats), t.lookup u = some s →
        (t.should_disable u = true ↔ disable_threshold ≤ s.consecutive_failures))
    ∧ (∀ (rs : List VisitRecord) (u : String),
        rs.length = 5 → (∀ r ∈ rs, r.url = u ∧ r.success = false) →
        (StatsTracker.empty.recordAll rs).should_disable u = true)
    ∧ (∀ (t : StatsTracker) (r : VisitRecord) (s : LinkStats), r.success = true →
        (t.record r).lookup r.url = some s → s.consecutive_failures = 0) := by
  refine ⟨rfl, ?_, ?_, ?_⟩
  · intro t u s h
    unfold StatsTracker.should_disable
    rw [h]
    simp
  · intro rs u hlen hall
    have hne : rs ≠ [] := by intro h; rw [h] at hlen; simp at hlen
    have hurl : ∀ r ∈ rs, r.url = u := fun r hr => (hall r hr).1
    unfold StatsTracker.should_disable
    rw [lookup_recordAll_ne_nil u rs StatsTracker.empty hne hurl]
    have hcf := foldl_consecutive_failures rs ((StatsTracker.empty.lookup u).getD (initStats u))
      (fun r hr => (hall r hr).2)
    simp only [StatsTracker.empty, initStats, Option.getD] at hcf ⊢
    simp only [hcf, hlen]
    rfl
  · intro t r s hsucc h
    rw [lookup_record, if_pos rfl] at h
    cases h
    simp [updateStats, hsucc]

theorem should_disable_spec_witness :
    (StatsTracker.empty.recordAll [rec_fail, rec_fail, rec_fail, rec_fail, rec_fail]).should_disable
        "https://x.com/a/status/1" = true :=
  should_disable_spec.2.2.1 [rec_fail, rec_fail, rec_fail, rec_fail, rec_fail]
    "https://x.com/a/status/1" rfl (by decide)

/-- Claim C9: after any sequence of record operations for a URL, the stats
entry's accumulated total_load_time is the sum of the recorded load times,
and the average load time equals total_load_time / visit_count, the running
mean over all recorded visits to that URL. -/
theorem average_load_time_spec (rs : List VisitRecord) (u : String)
    (h : ∀ r ∈ rs, r.url = u) :
    (urlStats rs u).total_load_time = (rs.map (fun r => r.load_time_seconds)).sum
      ∧ (urlStats rs u).average_load_time
        = (urlStats rs u).total_load_time / ((urlStats rs u).visit_count : Rat)
      ∧ (urlStats rs u).average_load_time
        = (rs.map (fun r => r.load_time_seconds)).sum / (rs.length : Rat) := by
  have htot : (urlStats rs u).total_load_time
      = (rs.map (fun r => r.load_time_seconds)).sum := by
    rw [urlStats_eq_foldl rs u h, foldl_total_load]
    simp [initStats]
  have hvc : (urlStats rs u).visit_count = rs.length := by
    rw [urlStats_eq_foldl rs u h, foldl_visit_count]
    simp [initStats]
  refine ⟨htot, rfl, ?_⟩
  rw [LinkStats.average_load_time, htot, hvc]

theorem average_load_time_spec_witness :
    (urlStats [rec_ok, rec_fail] "https://x.com/a/status/1").total_load_time
        = (([rec_ok, rec_fail] : List VisitRecord).map (fun r => r.load_time_seconds)).sum
      ∧ (urlStats [rec_ok, rec_fail] "https://x.com/a/status/1").average_load_time
        = (urlStats [rec_ok, rec_fail] "https://x.com/a/status/1").total_load_time
            / ((urlStats [rec_ok, rec_fail] "https://x.com/a/status/1").visit_count : Rat)
      ∧ (urlStats [rec_ok, rec_fail] "https://x.com/a/status/1").average_load_time
        = (([rec_ok, rec_fail] : List VisitRecord).map (fun r => r.load_time_seconds)).sum
            / ((([rec_ok, rec_fail] : List VisitRecord).length : Nat) : Rat) :=
  average_load_time_spec [rec_ok, rec_fail] "https://x.com/a/status/1" (by decide)

/-- Modelled from the spec, section 4.2: an outgoing request identity, a
user-agent string plus a header set; the implementation module
ultimate_stealth_bot.py is missing from the tree. -/
structure Identity where
  user_agent : String
  headers : List (String × String)
deriving DecidableEq

/-- Modelled from the spec, section 4.3: the outcome of one attempt of the
underlying HTTP transport, treated as a black box returning status, body
timing or a transport error (timeout, DNS, connection refused). -/
inductive AttemptOutcome
  | ok (status : Nat) (load_time : Rat)
  | transportFailure (msg : String)
deriving DecidableEq

/-- The transport black box, as the outcome of each attempt index. -/
def Transport : Type := Nat → AttemptOutcome

/-- Modelled from the spec, section 9 design notes: the bounded-retry policy
object applied by the Visit Executor, with exponential backoff between
attempts. -/
structure RetryPolicy where
  max_retries : Nat
  base_delay : Rat
  backoff_multiplier : Rat

/-- The exponential backoff delay before retry number i. -/
def RetryPolicy.backoff_delay (p : RetryPolicy) (i : Nat) : Rat :=
  p.base_delay * p.backoff_multiplier ^ i

/-- Build the single VisitRecord of a visit from the outcome of its last
transport attempt: success with status and timing, or a failed record with a
populated error field and no status. -/
def mkRecord (e : LinkEntry) (id : Identity) (ts : Nat) : AttemptOutcome → VisitRecord
  | .ok status lt =>
    { url := e.url
      category := e.category
      timestamp := ts
      http_status := some status
      success := true
      error := none
      load_time_seconds := lt
      user_agent := id.user_agent }
  | .transportFailure msg =>
    { url := e.url
      category := e.category
      timestamp := ts
      http_status := none
      success := false
      error := some msg
      load_time_seconds := 0
      user_agent := id.user_agent }

/-- Modelled from the spec, section 4.3 retry policy: starting at attempt i
with n retries left, stop at the first successful attempt or at the last
attempt; the returned outcome is the last attempt's. -/
def visitFrom (tr : Transport) (i : Nat) : Nat → AttemptOutcome
  | 0 => tr i
  | n + 1 =>
    match tr i with
    | .ok status lt => .ok status lt
    | .transportFailure _ => visitFrom tr (i + 1) n

/-- Modelled from the spec, section 4.3 `visit(entry, identity) ->
VisitRecord`: one visit with up to `retries` additional attempts, producing
exactly one VisitRecord that reflects only the last attempt performed; all
transport failures are captured as data, never raised. -/
def visit (retries : Nat) (tr : Transport) (e : LinkEntry) (id : Identity) (ts : Nat) :
    VisitRecord :=
  mkRecord e id ts (visitFrom tr 0 retries)

theorem visitFrom_all_fail (tr : Transport)
    (h : ∀ i, ∃ m, tr i = AttemptOutcome.transportFailure m) :
    ∀ (n i : Nat), ∃ m, visitFrom tr i n = AttemptOutcome.transportFailure m := by
  intro n
  induction n with
  | zero => intro i; exact h i
  | succ n ih =>
    intro i
    obtain ⟨m, hm⟩ := h i
    simp only [visitFrom, hm]
    exact ih (i + 1)

theorem visitFrom_exists_attempt (tr : Transport) :
    ∀ (n i : Nat), ∃ j, j ≤ n ∧ visitFrom tr i n = tr (i + j) := by
  intro n
  induction n with
  | zero => intro i; exact ⟨0, Nat.le_refl 0, rfl⟩
  | succ n ih =>
    intro i
    cases h : tr i with
    | ok status lt =>
      refine ⟨0, Nat.zero_le _, ?_⟩
      simp only [visitFrom, h, Nat.add_zero]
    | transportFailure m =>
      obtain ⟨j, hj, hval⟩ := ih (i + 1)
      refine ⟨j + 1, Nat.succ_le_succ hj, ?_⟩
      simp only [visitFrom, h, hval]
      congr 1
      omega

/-- Claim C5: visit is a total function into VisitRecord (no failure escapes
its boundary); its record has success=false exactly when the error field is
populated, and whenever every transport attempt fails (timeout, DNS,
connection refused), the record has success=false and a populated error. -/
theorem visit_never_raises :
    (∀ (retries : Nat) (tr : Transport) (e : LinkEntry) (id : Identity) (ts : Nat),
        (visit retries tr e id ts).success = false
          ↔ (visit retries tr e id ts).error.isSome = true)
    ∧ (∀ (retries : Nat) (tr : Transport) (e : LinkEntry) (id : Identity) (ts : Nat),
        (∀ i, ∃ m, tr i = AttemptOutcome.transportFailure m) →
        (visit retries tr e id ts).success = false
          ∧ (visit retries tr e id ts).error.isSome = true) := by
  constructor
  · intro retries tr e id ts
    unfold visit
    cases h : visitFrom tr 0 retries <;> simp [mkRecord]
  · intro retries tr e id ts h
    obtain ⟨m, hm⟩ := visitFrom_all_fail tr h retries 0
    unfold visit
    rw [hm]
    simp [mkRecord]

/-- A transport whose every attempt times out, used by witnesses. -/
def tr_fail : Transport := fun _ => .transportFailure "timeout"

/-- A fixed identity used by witnesses. -/
def id0 : Identity := ⟨"Mozilla/5.0", [("Accept", "text/html")]⟩

theorem visit_never_raises_witness :
    (visit 2 tr_fail entry0 id0 100).success = false
      ∧ (visit 2 tr_fail entry0 id0 100).error.isSome = true :=
  visit_never_raises.2 2 tr_fail entry0 id0 100 (fun _ => ⟨"timeout", rfl⟩)

/-- Claim C6: the Visit Executor makes at most retries+1 attempts and the one
VisitRecord it produces reflects the outcome of a single attempt; in the
concrete scenario of 2 retries where the transport fails twice and succeeds
on the third attempt, the single record has success=true, the final status,
and a load time reflecting only the final successful attempt. -/
theorem visit_retry_spec :
    (∀ (retries : Nat) (tr : Transport) (e : LinkEntry) (id : Identity) (ts : Nat),
        ∃ j, j ≤ retries ∧ visit retries tr e id ts = mkRecord e id ts (tr j))
    ∧ (∀ (tr : Transport) (e : LinkEntry) (id : Identity) (ts : Nat)
        (m0 m1 : String) (status : Nat) (lt : Rat),
        tr 0 = AttemptOutcome.transportFailure m0 →
        tr 1 = AttemptOutcome.transportFailure m1 →
        tr 2 = AttemptOutcome.ok status lt →
        (visit 2 tr e id ts).success = true
          ∧ (visit 2 tr e id ts).load_time_seconds = lt
          ∧ (visit 2 tr e id ts).http_status = some status
          ∧ (visit 2 tr e id ts).error = none) := by
  constructor
  · intro retries tr e id ts
    obtain ⟨j, hj, hval⟩ := visitFrom_exists_attempt tr retries 0
    refine ⟨j, hj, ?_⟩
    unfold visit
    rw [hval]
    simp
  · intro tr e id ts m0 m1 status lt h0 h1 h2
    have hv : visitFrom tr 0 2 = AttemptOutcome.ok status lt := by
      simp only [visitFrom, h0, h1, h2]
    unfold visit
    rw [hv]
    simp [mkRecord]

/-- A transport failing twice then succeeding, used by witnesses. -/
def tr_third : Transport := fun i =>
  if i = 0 then .transportFailure "timeout"
  else if i = 1 then .transportFailure "connection refused"
  else .ok 200 ((3 : Rat) / 10)

theorem visit_retry_spec_witness :
    (visit 2 tr_third entry0 id0 100).success = true
      ∧ (visit 2 tr_third entry0 id0 100).load_time_seconds = (3 : Rat) / 10
      ∧ (visit 2 tr_third entry0 id0 100).http_status = some 200
      ∧ (visit 2 tr_third entry0 id0 100).error = none :=
  visit_retry_spec.2 tr_third entry0 id0 100 "timeout" "connection refused" 200
    ((3 : Rat) / 10) rfl rfl rfl

/-- Modelled from the spec, section 6 input schema: the per-category
configuration (URL list, priority, frequency, delay range); the
implementation file links/target_links.py is missing from the tree. -/
structure CategoryConfig where
  urls : List String
  priority : Priority
  visit_frequency : VisitFrequency
  delay_min : Nat
  delay_max : Nat

/-- Modelled from the spec, section 4.1: the Link Registry maps category
names to their configuration, loaded once at startup. -/
def LinkRegistry : Type := List (String × CategoryConfig)

/-- Modelled from the spec, section 7 error taxonomy: the fatal
configuration-error case (unknown category, malformed link entry). -/
inductive BotError
  | configurationError (msg : String)
deriving DecidableEq

/-- Look a category up in the registry by name. -/
def lookupCategory (reg : LinkRegistry) (c : String) : Option CategoryConfig :=
  (reg.find? (fun p => p.1 = c)).map (fun p => p.2)

/-- The LinkEntry rows of one category. -/
def entriesOf (c : String) (cfg : CategoryConfig) : List LinkEntry :=
  cfg.urls.map (fun u =>
    { url := u
      category := c
      priority := cfg.priority
      visit_frequency := cfg.visit_frequency
      delay_min := cfg.delay_min
      delay_max := cfg.delay_max })

/-- Modelled from the spec, section 4.1 `get_links(categories)`: the ordered
sequence of LinkEntry rows of the requested categories, failing with
ConfigurationError when a requested category is unknown; the implementation
module links/link_manager.py is missing from the tree. -/
def get_links (reg : LinkRegistry) : List String → Except BotError (List LinkEntry)
  | [] => .ok []
  | c :: cs =>
    match lookupCategory reg c with
    | none => .error (.configurationError c)
    | some cfg =>
      match get_links reg cs with
      | .error e => .error e
      | .ok rest => .ok (entriesOf c cfg ++ rest)

/-- The observable outcome of one bounded run: the VisitRecords produced and
the process exit code. -/
structure RunOutcome where
  records : List VisitRecord
  exit_code : Nat

/-- Modelled from the spec, sections 6 and 7: a bounded run resolves the
requested categories first; a ConfigurationError aborts before any network
call with a non-zero exit, otherwise each resolved entry is visited. -/
def runBot (reg : LinkRegistry) (cats : List String)
    (visitFn : LinkEntry → VisitRecord) : RunOutcome :=
  match get_links reg cats with
  | .error _ => ⟨[], 1⟩
  | .ok entries => ⟨entries.map visitFn, 0⟩

theorem get_links_unknown (reg : LinkRegistry) :
    ∀ (cats : List String) (c : String), c ∈ cats → lookupCategory reg c = none →
      ∃ m, get_links reg cats = .error (.configurationError m) := by
  intro cats
  induction cats with
  | nil => intro c hc; exact absurd hc (List.not_mem_nil c)
  | cons c0 cs ih =>
    intro c hc hnone
    rcases List.mem_cons.mp hc with h | h
    · subst h
      refine ⟨c, ?_⟩
      simp only [get_links, hnone]
    · cases h0 : lookupCategory reg c0 with
      | none => exact ⟨c0, by simp only [get_links, h0]⟩
      | some cfg =>
        obtain ⟨m, hm⟩ := ih c h hnone
        refine ⟨m, ?_⟩
        simp only [get_links, h0, hm]

/-- Claim C7: requesting a category set containing a category unknown to the
Link Registry fails with a ConfigurationError, the run produces zero
VisitRecords (the error precedes any network call), and the process exits
non-zero. -/
theorem unknown_category_spec (reg : LinkRegistry) (cats : List String) (c : String)
    (visitFn : LinkEntry → VisitRecord)
    (hc : c ∈ cats) (hnone : lookupCategory reg c = none) :
    (∃ m, get_links reg cats = .error (.configurationError m))
      ∧ (runBot reg cats visitFn).records = []
      ∧ (runBot reg cats visitFn).exit_code ≠ 0 := by
  obtain ⟨m, hm⟩ := get_links_unknown reg cats c hc hnone
  refine ⟨⟨m, hm⟩, ?_, ?_⟩
  · simp only [runBot, hm]
  · simp only [runBot, hm]
    exact Nat.one_ne_zero

/-- A concrete registry with one known category, used by witnesses. -/
def reg0 : LinkRegistry :=
  [("x_links", ⟨["https://x.com/a/status/1"], .high, .frequent, 2, 5⟩)]

theorem unknown_category_spec_witness :
    (∃ m, get_links reg0 ["bogus"] = .error (.configurationError m))
      ∧ (runBot reg0 ["bogus"] (fun e => mkRecord e id0 0 (tr_fail 0))).records = []
      ∧ (runBot reg0 ["bogus"] (fun e => mkRecord e id0 0 (tr_fail 0))).exit_code ≠ 0 :=
  unknown_category_spec reg0 ["bogus"] "bogus" (fun e => mkRecord e id0 0 (tr_fail 0))
    (List.mem_singleton.mpr rfl) rfl

/-- Modelled from the spec, section 4.5: the Scheduler state machine
IDLE, RUNNING, SLEEPING, STOPPED; the implementation module
continuous_stealth_bot.py is missing from the tree. -/
inductive SchedState
  | idle
  | running
  | sleeping
  | stopped
deriving DecidableEq

/-- Modelled from the spec, section 4.5: one transition of the cycle-level
state machine given whether a cancellation signal is pending: a cancellation
signal transitions directly to STOPPED from any state; otherwise IDLE starts
RUNNING, a finished RUNNING cycle goes to SLEEPING, and a finished sleep
resumes RUNNING. -/
def schedulerStep : SchedState → Bool → SchedState
  | _, true => .stopped
  | .idle, false => .running
  | .running, false => .sleeping
  | .sleeping, false => .running
  | .stopped, false => .stopped

/-- The outcome of one RUNNING cycle: the tracker after folding, the
VisitRecords produced in order, and the state the loop ends in. -/
structure LoopResult where
  tracker : StatsTracker
  records : List VisitRecord
  final_state : SchedState

/-- Modelled from the spec, sections 4.5 and 7: the RUNNING loop over the
pending eligible entries. Every visit returns a VisitRecord (failures are
data, never exceptions), each record is folded into the Stats Tracker before
the cancellation signal is checked — so an in-flight visit completes and no
partial VisitRecord is left unrecorded — and on cancellation the loop ends
in STOPPED, otherwise the cycle ends in SLEEPING. -/
def runningLoop (visitFn : LinkEntry → VisitRecord) (cancel : Nat → Bool) :
    List LinkEntry → Nat → StatsTracker → List VisitRecord → LoopResult
  | [], _, t, acc => ⟨t, acc.reverse, .sleeping⟩
  | e :: es, i, t, acc =>
    let r := visitFn e
    if cancel i then
      ⟨t.record r, (r :: acc).reverse, .stopped⟩
    else
      runningLoop visitFn cancel es (i + 1) (t.record r) (r :: acc)

theorem runningLoop_acc (visitFn : LinkEntry → VisitRecord) (cancel : Nat → Bool) :
    ∀ (es : List LinkEntry) (i : Nat) (t : StatsTracker) (acc : List VisitRecord),
      ∃ new, (runningLoop visitFn cancel es i t acc).records = acc.reverse ++ new
        ∧ (runningLoop visitFn cancel es i t acc).tracker = t.recordAll new := by
  intro es
  induction es with
  | nil =>
    intro i t acc
    exact ⟨[], by simp [runningLoop], rfl⟩
  | cons e es ih =>
    intro i t acc
    by_cases hc : cancel i = true
    · refine ⟨[visitFn e], ?_, ?_⟩
      · simp [runningLoop, hc]
      · simp [runningLoop, hc, StatsTracker.recordAll]
    · have hc2 : cancel i = false := Bool.eq_false_iff.mpr hc
      obtain ⟨new, hrec, htr⟩ := ih (i + 1) (t.record (visitFn e)) (visitFn e :: acc)
      refine ⟨visitFn e :: new, ?_, ?_⟩
      · simp only [runningLoop, hc2, Bool.false_eq_true, if_false]
        rw [hrec]
        simp
      · simp only [runningLoop, hc2, Bool.false_eq_true, if_false]
        rw [htr]
        rfl

theorem runningLoop_no_cancel (visitFn : LinkEntry → VisitRecord) :
    ∀ (es : List LinkEntry) (i : Nat) (t : StatsTracker) (acc : List VisitRecord),
      (runningLoop visitFn (fun _ => false) es i t acc).final_state = SchedState.sleeping
        ∧ (runningLoop visitFn (fun _ => false) es i t acc).records.length
            = acc.length + es.length := by
  intro es
  induction es with
  | nil => intro i t acc; simp [runningLoop]
  | cons e es ih =>
    intro i t acc
    obtain ⟨h1, h2⟩ := ih (i + 1) (t.record (visitFn e)) (visitFn e :: acc)
    have hstep : runningLoop visitFn (fun _ => false) (e :: es) i t acc
        = runningLoop visitFn (fun _ => false) es (i + 1) (t.record (visitFn e))
            (visitFn e :: acc) := by
      simp [runningLoop]
    rw [hstep, h2]
    refine ⟨h1, ?_⟩
    simp only [List.length_cons]
    omega

/-- Claim C8: a cancellation signal transitions the scheduler to STOPPED from
any state; without cancellation the RUNNING loop processes every pending
entry regardless of individual visit failures and ends the cycle in SLEEPING
(a single visit's failure never terminates the loop); every VisitRecord the
loop produces is folded into the Stats Tracker (no partial record is left
unrecorded); and a cancellation during an iteration still completes and
records the in-flight visit before stopping. -/
theorem scheduler_loop_spec :
    (∀ s : SchedState, schedulerStep s true = SchedState.stopped)
    ∧ (∀ (visitFn : LinkEntry → VisitRecord) (es : List LinkEntry) (t : StatsTracker),
        (runningLoop visitFn (fun _ => false) es 0 t []).final_state = SchedState.sleeping
          ∧ (runningLoop visitFn (fun _ => false) es 0 t []).records.length = es.length)
    ∧ (∀ (visitFn : LinkEntry → VisitRecord) (cancel : Nat → Bool)
        (es : List LinkEntry) (t : StatsTracker),
        (runningLoop visitFn cancel es 0 t []).tracker
          = t.recordAll (runningLoop visitFn cancel es 0 t []).records)
    ∧ (∀ (visitFn : LinkEntry → VisitRecord) (cancel : Nat → Bool)
        (e : LinkEntry) (es : List LinkEntry) (t : StatsTracker),
        cancel 0 = true →
        (runningLoop visitFn cancel (e :: es) 0 t []).final_state = SchedState.stopped
          ∧ (runningLoop visitFn cancel (e :: es) 0 t []).records = [visitFn e]
          ∧ (runningLoop visitFn cancel (e :: es) 0 t []).tracker
              = t.record (visitFn e)) := by
  refine ⟨?_, ?_, ?_, ?_⟩
  · intro s; cases s <;> rfl
  · intro visitFn es t
    have h := runningLoop_no_cancel visitFn es 0 t []
    simpa using h
  · intro visitFn cancel es t
    obtain ⟨new, hrec, htr⟩ := runningLoop_acc visitFn cancel es 0 t []
    rw [htr, hrec]
    simp
  · intro visitFn cancel e es t hc
    refine ⟨?_, ?_, ?_⟩ <;> simp [runningLoop, hc]

theorem scheduler_loop_spec_witness :
    (runningLoop (fun e => mkRecord e id0 0 (tr_fail 0)) (fun _ => true)
        [entry0] 0 StatsTracker.empty []).final_state = SchedState.stopped
      ∧ (runningLoop (fun e => mkRecord e id0 0 (tr_fail 0)) (fun _ => true)
          [entry0] 0 StatsTracker.empty []).records
        = [mkRecord entry0 id0 0 (tr_fail 0)]
      ∧ (runningLoop (fun e => mkRecord e id0 0 (tr_fail 0)) (fun _ => true)
          [entry0] 0 StatsTracker.empty []).tracker
        = StatsTracker.empty.record (mkRecord entry0 id0 0 (tr_fail 0)) :=
  scheduler_loop_spec.2.2.2 (fun e => mkRecord e id0 0 (tr_fail 0)) (fun _ => true)
    entry0 [] StatsTracker.empty rfl

/-- Modelled from the spec, sections 4.2 and 6: the Identity Provider is a
read-only pool of user-agent/header templates plus the rotation flag
(disabled by the no-user-agent-rotation option); the implementation module
ultimate_stealth_bot.py is missing from the tree. -/
structure IdentityProvider where
  pool : List Identity
  rotation_on : Bool

/-- The single fixed identity used for the whole run when rotation is
disabled: the first pool template (or a default when the pool is empty). -/
def fixed_identity (p : IdentityProvider) : Identity :=
  p.pool.headD ⟨"Mozilla/5.0", []⟩

/-- Modelled from the spec, section 4.2 `next_identity()`: with rotation
enabled, select a template from the read-only pool by the random draw; with
rotation disabled, return the single fixed identity. The function carries no
state beyond the pool and the draw. -/
def next_identity (p : IdentityProvider) (draw : Nat) : Identity :=
  if p.rotation_on then
    (p.pool.get? (draw % p.pool.length)).getD (fixed_identity p)
  else
    fixed_identity p

/-- Claim C10: with rotation disabled every call returns the same fixed
identity (constant user_agent and headers across all calls); with rotation
enabled every call returns a member of the read-only pool, the result
depending on nothing but the pool and the draw. -/
theorem next_identity_spec :
    (∀ (p : IdentityProvider), p.rotation_on = false →
        ∀ (d1 d2 : Nat),
          next_identity p d1 = next_identity p d2
            ∧ (next_identity p d1).user_agent = (fixed_identity p).user_agent
            ∧ (next_identity p d1).headers = (fixed_identity p).headers)
    ∧ (∀ (p : IdentityProvider), p.rotation_on = true → p.pool ≠ [] →
        ∀ (d : Nat), next_identity p d ∈ p.pool) := by
  constructor
  · intro p hrot d1 d2
    simp [next_identity, hrot]
  · intro p hrot hpool d
    have hlen : 0 < p.pool.length := List.length_pos.mpr hpool
    have hlt : d % p.pool.length < p.pool.length := Nat.mod_lt d hlen
    rw [next_identity, if_pos hrot, List.get?_eq_get hlt]
    simp only [Option.getD_some]
    exact List.get_mem p.pool (d % p.pool.length) hlt

/-- A concrete identity pool used by witnesses. -/
def provider0 : IdentityProvider :=
  ⟨[⟨"Mozilla/5.0 (Windows NT 10.0)", []⟩, ⟨"Mozilla/5.0 (Macintosh)", []⟩], true⟩

theorem next_identity_spec_witness :
    next_identity provider0 3 ∈ provider0.pool :=
  next_identity_spec.2 provider0 rfl (by decide) 3

end StealthBot
